import Mathlib

/-!
Verification of `src/start_testbuilds.py` (deep-learning-containers test
dispatcher). The script decides which downstream CodeBuild test jobs to
trigger for a pull-request build, assembles per-job environment-variable
override lists, and calls the CodeBuild `start_build` API.

Shallow embedding: ambient state (environment variables, the config module,
the file system) is passed explicitly; each Python function becomes a pure
Lean function; `raise` becomes `Except.error`; a dispatched `start_build`
call becomes a `BuildInvocation` value collected in a list.

Python `None` for optional strings (e.g. the result of `os.getenv` with no
default) is modelled as `Option String` with `none` for `None`.
-/

/-- Python's substring test `needle in hay` on strings. -/
def pyIn (needle hay : String) : Bool :=
  decide (needle.toList <:+: hay.toList)

/-- Python's `a or b` on optional strings, where `None` and the empty string
are falsy: used for `config.get_buildspec_override() or os.getenv(...)`. -/
def pyOr (a b : Option String) : Option String :=
  match a with
  | some s => if s = "" then b else some s
  | none => b

/-- Python's `str` on a boolean: `str(True) = "True"`, `str(False) = "False"`. -/
def pyStr (b : Bool) : String :=
  if b then "True" else "False"

/-- One element of an `environmentVariablesOverride` list, a dict
`{"name": ..., "value": ..., "type": "PLAINTEXT"}` in the source. The
`value` field is `Option String` because the source can place Python `None`
there (`os.getenv("PR_NUMBER")` with no default, line 60/69). -/
structure EnvOverride where
  name : String
  value : Option String
  type : String
deriving DecidableEq

/-- Exceptions the script can raise: `FileNotFoundError`, carrying the path
of the missing file (raised explicitly at line 39 for `TEST_ENV_PATH`;
raised by `open` at line 252 for `TEST_TYPE_IMAGES_PATH`). -/
inductive PyErr where
  | fileNotFoundError (path : String)
deriving DecidableEq

/-- One `client.start_build(...)` call (lines 116-120): project name, the
environment-override list, and the source version (commit), which is
`os.getenv(...)` and hence optional. -/
structure BuildInvocation where
  projectName : String
  environmentVariablesOverride : List EnvOverride
  sourceVersion : Option String
deriving DecidableEq

/-- Snapshot of the `config` module as consumed by `start_testbuilds.py`:
boolean flags, string values, and framework-dependent builder predicates.
The config module itself is not under src; its members are treated as an
opaque read-only snapshot, exactly as the script consumes them. -/
structure Config where
  is_deep_canary_mode_enabled : Bool
  are_heavy_instance_ec2_tests_enabled : Bool
  is_ipv6_test_enabled : Bool
  is_nightly_pr_test_mode_enabled : Bool
  is_scheduler_enabled : Bool
  get_sagemaker_remote_efa_instance_type : String
  get_ipv6_vpc_name : String
  get_buildspec_override : Option String
  is_sm_remote_test_enabled : Bool
  is_sm_efa_test_enabled : Bool
  is_sm_rc_test_enabled : Bool
  is_sm_benchmark_test_enabled : Bool
  is_ec2_test_enabled : Bool
  is_ec2_benchmark_test_enabled : Bool
  is_ecs_test_enabled : Bool
  is_eks_test_enabled : Bool
  is_sanity_test_enabled : Bool
  is_security_test_enabled : Bool
  is_sm_local_test_enabled : Bool
  is_autopatch_build_enabled : Option String → Bool
  is_general_builder_enabled_for_this_pr_build : Option String → Bool
  is_graviton_builder_enabled_for_this_pr_build : Option String → Bool
  is_arm64_builder_enabled_for_this_pr_build : Option String → Bool

/-- Snapshot of the process environment variables the script reads, each
`Option String` (`os.getenv` returns `None` when unset), plus the CodeBuild
project name returned by `get_codebuild_project_name()` (line 225). -/
structure Env where
  build_context : Option String
  framework : Option String
  image_type : Option String
  pr_number : Option String
  codebuild_resolved_source_version : Option String
  framework_buildspec_file : Option String
  codebuild_project_name : String

/-- The file-system state the script touches: the contents of the file at
`constants.TEST_ENV_PATH` (a JSON array of env-override records; `none`
means the file does not exist) and the contents of the file at
`constants.TEST_TYPE_IMAGES_PATH` (a JSON object mapping test-type name to
image list, kept as an ordered association list; `none` means missing). -/
structure FS where
  testEnvFile : Option (List EnvOverride)
  testTypeImagesFile : Option (List (String × List String))
deriving DecidableEq

namespace constants

/-- Modelled from the spec: the repository's `constants` module is not under
src. Test-type name strings are taken from the spec (§4.1 step 3, §8,
glossary): "ec2", "ec2-benchmark", "ecs", "eks", "sanity", "security",
"sagemaker". -/
def EC2_TESTS : String := "ec2"

/-- Modelled from the spec: see `constants.EC2_TESTS`. -/
def EC2_BENCHMARK_TESTS : String := "ec2-benchmark"

/-- Modelled from the spec: see `constants.EC2_TESTS`. -/
def ECS_TESTS : String := "ecs"

/-- Modelled from the spec: see `constants.EC2_TESTS`. -/
def EKS_TESTS : String := "eks"

/-- Modelled from the spec: see `constants.EC2_TESTS`. -/
def SANITY_TESTS : String := "sanity"

/-- Modelled from the spec: see `constants.EC2_TESTS`. -/
def SECURITY_TESTS : String := "security"

/-- Modelled from the spec: the spec's §4.1/§8 use test type "sagemaker"
for the remote SageMaker tests. -/
def SAGEMAKER_REMOTE_TESTS : String := "sagemaker"

/-- Modelled from the spec: the spec does not name this constant's value;
any string distinct from the other test-type names preserves the script's
behaviour on the enumerated set. -/
def SAGEMAKER_EFA_TESTS : String := "sagemaker-efa"

/-- Modelled from the spec: see `constants.SAGEMAKER_EFA_TESTS`. -/
def SAGEMAKER_RC_TESTS : String := "sagemaker-rc"

/-- Modelled from the spec: see `constants.SAGEMAKER_EFA_TESTS`. -/
def SAGEMAKER_BENCHMARK_TESTS : String := "sagemaker-benchmark"

/-- Modelled from the spec: the path of the base environment-override file;
the spec does not give the literal path, only that it is a fixed constant. -/
def TEST_ENV_PATH : String := "test_env.json"

/-- Modelled from the spec: the path of the test-type → images JSON file. -/
def TEST_TYPE_IMAGES_PATH : String := "test_type_images.json"

end constants

/-- The eleven baseline env-override records appended by `run_test_job` via
`env_overrides.extend([...])` (lines 62-112), in source order. `pr_num` is
`os.getenv("PR_NUMBER")` (line 60, may be `None`); `FRAMEWORK` and
`IMAGE_TYPE` use `os.getenv(name, "")` (lines 65, 67, never `None`);
`FRAMEWORK_BUILDSPEC_FILE` is
`config.get_buildspec_override() or os.getenv("FRAMEWORK_BUILDSPEC_FILE")`
(line 108, may be `None`). `are_heavy`/`is_ipv6` are the flags computed at
lines 50-55: config flag AND `"ec2" in codebuild_project`. -/
def baseline_env_overrides (cfg : Config) (env : Env)
    (codebuild_project images_str : String) : List EnvOverride :=
  let are_heavy_instance_ec2_tests_enabled :=
    cfg.are_heavy_instance_ec2_tests_enabled && pyIn "ec2" codebuild_project
  let is_ipv6_test_enabled :=
    cfg.is_ipv6_test_enabled && pyIn "ec2" codebuild_project
  [ { name := "FRAMEWORK", value := some (env.framework.getD ""), type := "PLAINTEXT" },
    { name := "IMAGE_TYPE", value := some (env.image_type.getD ""), type := "PLAINTEXT" },
    { name := "DLC_IMAGES", value := some images_str, type := "PLAINTEXT" },
    { name := "PR_NUMBER", value := env.pr_number, type := "PLAINTEXT" },
    { name := "NIGHTLY_PR_TEST_MODE",
      value := some (pyStr cfg.is_nightly_pr_test_mode_enabled), type := "PLAINTEXT" },
    { name := "USE_SCHEDULER",
      value := some (pyStr cfg.is_scheduler_enabled), type := "PLAINTEXT" },
    { name := "SM_EFA_TEST_INSTANCE_TYPE",
      value := some cfg.get_sagemaker_remote_efa_instance_type, type := "PLAINTEXT" },
    { name := "IPV6_VPC_NAME",
      value := some cfg.get_ipv6_vpc_name, type := "PLAINTEXT" },
    { name := "HEAVY_INSTANCE_EC2_TESTS_ENABLED",
      value := some (pyStr are_heavy_instance_ec2_tests_enabled), type := "PLAINTEXT" },
    { name := "ENABLE_IPV6_TESTING",
      value := some (pyStr is_ipv6_test_enabled), type := "PLAINTEXT" },
    { name := "FRAMEWORK_BUILDSPEC_FILE",
      value := pyOr cfg.get_buildspec_override env.framework_buildspec_file,
      type := "PLAINTEXT" } ]

/-- Embeds `run_test_job(commit, codebuild_project, images_str)` (lines
36-120). Raises `FileNotFoundError` when `constants.TEST_ENV_PATH` does not
exist (lines 38-42); otherwise loads the base overrides, appends a
`DEEP_CANARY_MODE` entry when deep-canary mode is enabled (lines 57-58),
extends with the eleven baseline entries (lines 62-112), and calls
`start_build` (lines 116-120), modelled as returning the invocation. -/
def run_test_job (cfg : Config) (env : Env) (fs : FS) (commit : Option String)
    (codebuild_project : String) (images_str : String) :
    Except PyErr BuildInvocation :=
  match fs.testEnvFile with
  | none => .error (.fileNotFoundError constants.TEST_ENV_PATH)
  | some base =>
    let env_overrides :=
      if cfg.is_deep_canary_mode_enabled then
        base ++ [{ name := "DEEP_CANARY_MODE", value := some "true", type := "PLAINTEXT" }]
      else base
    let env_overrides :=
      env_overrides ++ baseline_env_overrides cfg env codebuild_project images_str
    .ok { projectName := codebuild_project,
          environmentVariablesOverride := env_overrides,
          sourceVersion := commit }

/-- Embeds `is_test_job_enabled(test_type)` (lines 123-149): the flat
sequence of `if test_type == constants.X and config.flag(): return True`
checks, falling through to `False`. -/
def is_test_job_enabled (cfg : Config) (test_type : String) : Bool :=
  if test_type == constants.SAGEMAKER_REMOTE_TESTS && cfg.is_sm_remote_test_enabled then true
  else if test_type == constants.SAGEMAKER_EFA_TESTS && cfg.is_sm_efa_test_enabled then true
  else if test_type == constants.SAGEMAKER_RC_TESTS && cfg.is_sm_rc_test_enabled then true
  else if test_type == constants.SAGEMAKER_BENCHMARK_TESTS && cfg.is_sm_benchmark_test_enabled then true
  else if test_type == constants.EC2_TESTS && cfg.is_ec2_test_enabled then true
  else if test_type == constants.EC2_BENCHMARK_TESTS && cfg.is_ec2_benchmark_test_enabled then true
  else if test_type == constants.ECS_TESTS && cfg.is_ecs_test_enabled then true
  else if test_type == constants.EKS_TESTS && cfg.is_eks_test_enabled then true
  else if test_type == constants.SANITY_TESTS && cfg.is_sanity_test_enabled then true
  else if test_type == constants.SECURITY_TESTS && cfg.is_security_test_enabled then true
  else false

/-- Embeds `is_test_job_implemented_for_framework(images_str, test_type)`
(lines 152-198). The three image-class booleans follow the source's nested
`if "huggingface" in images_str: ... elif "trcomp" in images_str: ...`
structure (lines 156-165); `is_autogluon_image` is a plain substring check
(line 167); the three skip conditions are lines 169-197. -/
def is_test_job_implemented_for_framework (images_str test_type : String) : Bool :=
  let is_huggingface_trcomp_image :=
    if pyIn "huggingface" images_str then pyIn "trcomp" images_str else false
  let is_huggingface_image :=
    if pyIn "huggingface" images_str then !(pyIn "trcomp" images_str) else false
  let is_trcomp_image :=
    if pyIn "huggingface" images_str then false else pyIn "trcomp" images_str
  let is_autogluon_image := pyIn "autogluon" images_str
  if (is_huggingface_image || is_autogluon_image) &&
      [constants.EC2_TESTS, constants.EC2_BENCHMARK_TESTS,
       constants.ECS_TESTS, constants.EKS_TESTS].contains test_type then
    false
  else if is_huggingface_trcomp_image &&
      [constants.ECS_TESTS, constants.EKS_TESTS,
       constants.EC2_BENCHMARK_TESTS].contains test_type then
    false
  else if is_trcomp_image &&
      [constants.EKS_TESTS, constants.EC2_BENCHMARK_TESTS].contains test_type then
    false
  else
    true

/-- The job-name computation of `main`'s general path (lines 263-271):
`dlc-pr-{test_type}-test`, and for the sanity/security test types a
`-graviton` suffix when `images_str` contains "graviton", else `-arm64`
when it contains "arm64". -/
def compute_pr_test_job (test_type images_str : String) : String :=
  let pr_test_job := "dlc-pr-" ++ test_type ++ "-test"
  if test_type == constants.SANITY_TESTS || test_type == constants.SECURITY_TESTS then
    if pyIn "graviton" images_str then pr_test_job ++ "-graviton"
    else if pyIn "arm64" images_str then pr_test_job ++ "-arm64"
    else pr_test_job
  else pr_test_job

/-- One iteration of `main`'s general-path loop body (lines 258-287) for a
`(test_type, images)` pair: skip when `images` is empty (line 262); else
compute `images_str` and the job name, then up to three sequential
dispatches — the main job guarded by the two eligibility predicates (lines
273-276), the autopr job (lines 278-282), and the sagemaker-local job
(lines 285-287). A raised exception aborts the remaining dispatches. -/
def process_test_type (cfg : Config) (env : Env) (fs : FS) (commit : Option String)
    (test_type : String) (images : List String) : Except PyErr (List BuildInvocation) :=
  if images.isEmpty then .ok []
  else
    let images_str := String.intercalate " " images
    let pr_test_job := compute_pr_test_job test_type images_str
    let step1 : Except PyErr (List BuildInvocation) :=
      if is_test_job_enabled cfg test_type &&
          is_test_job_implemented_for_framework images_str test_type then
        (run_test_job cfg env fs commit pr_test_job images_str).map (fun inv => [inv])
      else .ok []
    let step2 : Except PyErr (List BuildInvocation) :=
      if test_type == "autopr" &&
          cfg.is_autopatch_build_enabled
            (pyOr cfg.get_buildspec_override env.framework_buildspec_file) then
        (run_test_job cfg env fs commit ("dlc-pr-" ++ test_type) images_str).map
          (fun inv => [inv])
      else .ok []
    let step3 : Except PyErr (List BuildInvocation) :=
      if test_type == "sagemaker" && cfg.is_sm_local_test_enabled then
        (run_test_job cfg env fs commit ("dlc-pr-" ++ test_type ++ "-local-test")
            images_str).map (fun inv => [inv])
      else .ok []
    match step1 with
    | .error e => .error e
    | .ok a =>
      match step2 with
      | .error e => .error e
      | .ok b =>
        match step3 with
        | .error e => .error e
        | .ok c => .ok (a ++ b ++ c)

/-- The general-path loop of `main` (line 258: `for test_type, images in
test_images.items()`), collecting all dispatched invocations in order; a
raised exception aborts the remaining iterations. -/
def main_loop (cfg : Config) (env : Env) (fs : FS) (commit : Option String) :
    List (String × List String) → Except PyErr (List BuildInvocation)
  | [] => .ok []
  | (test_type, images) :: rest =>
    match process_test_type cfg env fs commit test_type images with
    | .error e => .error e
    | .ok here =>
      match main_loop cfg env fs commit rest with
      | .error e => .error e
      | .ok more => .ok (here ++ more)

/-- Embeds `run_deep_canary_pr_testbuilds()` (lines 201-235). When
deep-canary mode is enabled and a general/graviton/arm64 builder is enabled
for this build's framework, it overwrites `constants.TEST_ENV_PATH` with a
single `TEST_TRIGGER` entry (lines 224-227), picks the job-name suffix
(`-graviton` before `-arm64`, lines 231-234), and calls `run_test_job`
(line 235, with the default empty `images_str`). Otherwise it does nothing.
Returns the final file-system state and the dispatched invocations. -/
def run_deep_canary_pr_testbuilds (cfg : Config) (env : Env) (fs : FS) :
    Except PyErr (FS × List BuildInvocation) :=
  let build_framework := env.framework
  let general_builder_enabled := cfg.is_general_builder_enabled_for_this_pr_build build_framework
  let graviton_builder_enabled := cfg.is_graviton_builder_enabled_for_this_pr_build build_framework
  let arm64_builder_enabled := cfg.is_arm64_builder_enabled_for_this_pr_build build_framework
  if cfg.is_deep_canary_mode_enabled &&
      (general_builder_enabled || graviton_builder_enabled || arm64_builder_enabled) then
    let commit := env.codebuild_resolved_source_version
    let test_env_variables : List EnvOverride :=
      [{ name := "TEST_TRIGGER", value := some env.codebuild_project_name,
         type := "PLAINTEXT" }]
    let fs1 : FS := { fs with testEnvFile := some test_env_variables }
    let test_type := "deep-canary"
    let pr_test_job := "dlc-pr-" ++ test_type ++ "-test"
    let pr_test_job :=
      if graviton_builder_enabled then pr_test_job ++ "-graviton"
      else if arm64_builder_enabled then pr_test_job ++ "-arm64"
      else pr_test_job
    match run_test_job cfg env fs1 commit pr_test_job "" with
    | .error e => .error e
    | .ok inv => .ok (fs1, [inv])
  else .ok (fs, [])

/-- Embeds `main()` (lines 238-287). Returns early when `BUILD_CONTEXT` is
not "PR" (lines 239-242); takes the deep-canary path and stops when
deep-canary mode is enabled (lines 244-249); otherwise opens
`constants.TEST_TYPE_IMAGES_PATH` (raising `FileNotFoundError` when
missing) and runs the general-path loop. Returns the final file-system
state and all dispatched invocations in dispatch order. -/
def StartTestbuilds.main (cfg : Config) (env : Env) (fs : FS) :
    Except PyErr (FS × List BuildInvocation) :=
  if env.build_context ≠ some "PR" then .ok (fs, [])
  else if cfg.is_deep_canary_mode_enabled then
    run_deep_canary_pr_testbuilds cfg env fs
  else
    match fs.testTypeImagesFile with
    | none => .error (.fileNotFoundError constants.TEST_TYPE_IMAGES_PATH)
    | some test_images =>
      let commit := env.codebuild_resolved_source_version
      match main_loop cfg env fs commit test_images with
      | .error e => .error e
      | .ok invs => .ok (fs, invs)

/-- The rule the specification states for predicate B
(`is_test_job_implemented_for_framework`), written from the spec's words
(§4.1 step 3): boolean derivation by plain conjunctions of substring
checks, then the three skip rules over literal test-type names. Declared
for refinement comparison against the definition taken from the source. -/
def spec_is_test_job_implemented_for_framework (images_str test_type : String) : Bool :=
  let is_huggingface_trcomp := pyIn "huggingface" images_str && pyIn "trcomp" images_str
  let is_huggingface := pyIn "huggingface" images_str && !(pyIn "trcomp" images_str)
  let is_trcomp := pyIn "trcomp" images_str && !(pyIn "huggingface" images_str)
  let is_autogluon := pyIn "autogluon" images_str
  if (is_huggingface || is_autogluon) &&
      ["ec2", "ec2-benchmark", "ecs", "eks"].contains test_type then false
  else if is_huggingface_trcomp &&
      ["ecs", "eks", "ec2-benchmark"].contains test_type then false
  else if is_trcomp && ["eks", "ec2-benchmark"].contains test_type then false
  else true

/-- The job-name rule the specification states for the general path (§4.1
step 3): `dlc-pr-{test_type}-test`, and only for the literal test types
"sanity" and "security" append `-graviton` when the images string contains
"graviton", else `-arm64` when it contains "arm64". Declared for
refinement comparison against `compute_pr_test_job`. -/
def spec_job_name (test_type images_str : String) : String :=
  let base := "dlc-pr-" ++ test_type ++ "-test"
  if test_type == "sanity" || test_type == "security" then
    if pyIn "graviton" images_str then base ++ "-graviton"
    else if pyIn "arm64" images_str then base ++ "-arm64"
    else base
  else base

/-- The names of the eleven baseline env-override entries of §6, in the
order `run_test_job` appends them. -/
def baselineNames : List String :=
  ["FRAMEWORK", "IMAGE_TYPE", "DLC_IMAGES", "PR_NUMBER", "NIGHTLY_PR_TEST_MODE",
   "USE_SCHEDULER", "SM_EFA_TEST_INSTANCE_TYPE", "IPV6_VPC_NAME",
   "HEAVY_INSTANCE_EC2_TESTS_ENABLED", "ENABLE_IPV6_TESTING",
   "FRAMEWORK_BUILDSPEC_FILE"]


/-- The `TEST_TRIGGER` env-override record the deep-canary path writes to
`constants.TEST_ENV_PATH` (lines 224-226). -/
def test_trigger_entry (env : Env) : EnvOverride :=
  { name := "TEST_TRIGGER", value := some env.codebuild_project_name, type := "PLAINTEXT" }

/-- The invocation `run_test_job` produces when the base env-override file
holds `base`: the base records, the optional `DEEP_CANARY_MODE` record, and
the eleven baseline records. -/
def dispatched_inv (cfg : Config) (env : Env) (base : List EnvOverride)
    (commit : Option String) (proj s : String) : BuildInvocation :=
  { projectName := proj,
    environmentVariablesOverride :=
      (if cfg.is_deep_canary_mode_enabled then
        base ++ [{ name := "DEEP_CANARY_MODE", value := some "true", type := "PLAINTEXT" }]
      else base) ++ baseline_env_overrides cfg env proj s,
    sourceVersion := commit }

lemma run_test_job_ok_of_some (cfg : Config) (env : Env) (fs : FS)
    (commit : Option String) (proj s : String) (base : List EnvOverride)
    (h : fs.testEnvFile = some base) :
    run_test_job cfg env fs commit proj s = .ok (dispatched_inv cfg env base commit proj s) := by
  simp [run_test_job, h, dispatched_inv]

lemma run_test_job_err_of_none (cfg : Config) (env : Env) (fs : FS)
    (commit : Option String) (proj s : String)
    (h : fs.testEnvFile = none) :
    run_test_job cfg env fs commit proj s =
      .error (.fileNotFoundError constants.TEST_ENV_PATH) := by
  simp [run_test_job, h]

lemma map_name_baseline (cfg : Config) (env : Env) (proj s : String) :
    (baseline_env_overrides cfg env proj s).map EnvOverride.name = baselineNames := rfl

lemma mem_ite_singleton {α : Type} {b : Bool} {x y : α}
    (h : y ∈ (if b then [x] else ([] : List α))) : y = x := by
  cases b <;> simp at h
  exact h

lemma process_test_type_empty (cfg : Config) (env : Env) (fs : FS)
    (commit : Option String) (t : String) (images : List String)
    (h : images.isEmpty = true) :
    process_test_type cfg env fs commit t images = .ok [] := by
  simp [process_test_type, h]

lemma process_test_type_eq_of_some (cfg : Config) (env : Env) (fs : FS)
    (commit : Option String) (t : String) (images : List String)
    (base : List EnvOverride)
    (hfs : fs.testEnvFile = some base) (hne : images.isEmpty = false) :
    process_test_type cfg env fs commit t images =
      .ok ((if is_test_job_enabled cfg t &&
              is_test_job_implemented_for_framework (String.intercalate " " images) t then
              [dispatched_inv cfg env base commit
                (compute_pr_test_job t (String.intercalate " " images))
                (String.intercalate " " images)]
            else []) ++
           (if t == "autopr" &&
              cfg.is_autopatch_build_enabled
                (pyOr cfg.get_buildspec_override env.framework_buildspec_file) then
              [dispatched_inv cfg env base commit ("dlc-pr-" ++ t)
                (String.intercalate " " images)]
            else []) ++
           (if t == "sagemaker" && cfg.is_sm_local_test_enabled then
              [dispatched_inv cfg env base commit ("dlc-pr-" ++ t ++ "-local-test")
                (String.intercalate " " images)]
            else [])) := by
  have hr : ∀ proj s, run_test_job cfg env fs commit proj s =
      .ok (dispatched_inv cfg env base commit proj s) :=
    fun proj s => run_test_job_ok_of_some cfg env fs commit proj s base hfs
  cases h1 : (is_test_job_enabled cfg t &&
      is_test_job_implemented_for_framework (String.intercalate " " images) t) <;>
  cases h2 : (t == "autopr" &&
      cfg.is_autopatch_build_enabled
        (pyOr cfg.get_buildspec_override env.framework_buildspec_file)) <;>
  cases h3 : (t == "sagemaker" && cfg.is_sm_local_test_enabled) <;>
  simp [process_test_type, hne, h1, h2, h3, hr, Except.map]

lemma process_test_type_eq_of_none (cfg : Config) (env : Env) (fs : FS)
    (commit : Option String) (t : String) (images : List String)
    (hfs : fs.testEnvFile = none) (hne : images.isEmpty = false) :
    process_test_type cfg env fs commit t images =
      if (is_test_job_enabled cfg t &&
            is_test_job_implemented_for_framework (String.intercalate " " images) t) ||
          (t == "autopr" &&
            cfg.is_autopatch_build_enabled
              (pyOr cfg.get_buildspec_override env.framework_buildspec_file)) ||
          (t == "sagemaker" && cfg.is_sm_local_test_enabled) then
        .error (.fileNotFoundError constants.TEST_ENV_PATH)
      else .ok [] := by
  have hr : ∀ proj s, run_test_job cfg env fs commit proj s =
      .error (.fileNotFoundError constants.TEST_ENV_PATH) :=
    fun proj s => run_test_job_err_of_none cfg env fs commit proj s hfs
  cases h1 : (is_test_job_enabled cfg t &&
      is_test_job_implemented_for_framework (String.intercalate " " images) t) <;>
  cases h2 : (t == "autopr" &&
      cfg.is_autopatch_build_enabled
        (pyOr cfg.get_buildspec_override env.framework_buildspec_file)) <;>
  cases h3 : (t == "sagemaker" && cfg.is_sm_local_test_enabled) <;>
  simp [process_test_type, hne, h1, h2, h3, hr, Except.map]

lemma mem_of_process_test_type (cfg : Config) (env : Env) (fs : FS)
    (commit : Option String) (t : String) (images : List String)
    (invs : List BuildInvocation) (inv : BuildInvocation)
    (h : process_test_type cfg env fs commit t images = .ok invs) (hm : inv ∈ invs) :
    ∃ proj s, run_test_job cfg env fs commit proj s = .ok inv := by
  cases hne : images.isEmpty with
  | true =>
    rw [process_test_type_empty cfg env fs commit t images hne] at h
    simp at h
    subst h
    simp at hm
  | false =>
    cases hfs : fs.testEnvFile with
    | none =>
      rw [process_test_type_eq_of_none cfg env fs commit t images hfs hne] at h
      split at h
      · simp at h
      · simp at h
        subst h
        simp at hm
    | some base =>
      rw [process_test_type_eq_of_some cfg env fs commit t images base hfs hne] at h
      simp only [Except.ok.injEq] at h
      subst h
      simp only [List.mem_append] at hm
      have hr : ∀ proj s, run_test_job cfg env fs commit proj s =
          .ok (dispatched_inv cfg env base commit proj s) :=
        fun proj s => run_test_job_ok_of_some cfg env fs commit proj s base hfs
      rcases hm with (hm | hm) | hm
      · rw [mem_ite_singleton hm]
        exact ⟨_, _, hr _ _⟩
      · rw [mem_ite_singleton hm]
        exact ⟨_, _, hr _ _⟩
      · rw [mem_ite_singleton hm]
        exact ⟨_, _, hr _ _⟩

lemma mem_of_main_loop (cfg : Config) (env : Env) (fs : FS) (commit : Option String)
    (l : List (String × List String)) (invs : List BuildInvocation)
    (inv : BuildInvocation)
    (h : main_loop cfg env fs commit l = .ok invs) (hm : inv ∈ invs) :
    ∃ proj s, run_test_job cfg env fs commit proj s = .ok inv := by
  induction l generalizing invs with
  | nil =>
    simp [main_loop] at h
    subst h
    simp at hm
  | cons p rest ih =>
    obtain ⟨t, images⟩ := p
    rw [main_loop] at h
    cases hp : process_test_type cfg env fs commit t images with
    | error e => rw [hp] at h; simp at h
    | ok here =>
      rw [hp] at h
      cases hl : main_loop cfg env fs commit rest with
      | error e => rw [hl] at h; simp at h
      | ok more =>
        rw [hl] at h
        simp only [Except.ok.injEq] at h
        subst h
        rcases List.mem_append.mp hm with hm' | hm'
        · exact mem_of_process_test_type cfg env fs commit t images here inv hp hm'
        · exact ih more hl hm'

lemma run_deep_canary_eq (cfg : Config) (env : Env) (fs : FS) :
    run_deep_canary_pr_testbuilds cfg env fs =
      if cfg.is_deep_canary_mode_enabled &&
          (cfg.is_general_builder_enabled_for_this_pr_build env.framework ||
           cfg.is_graviton_builder_enabled_for_this_pr_build env.framework ||
           cfg.is_arm64_builder_enabled_for_this_pr_build env.framework) then
        .ok ({ fs with testEnvFile := some [test_trigger_entry env] },
             [dispatched_inv cfg env [test_trigger_entry env]
               env.codebuild_resolved_source_version
               (if cfg.is_graviton_builder_enabled_for_this_pr_build env.framework then
                 "dlc-pr-deep-canary-test-graviton"
                else if cfg.is_arm64_builder_enabled_for_this_pr_build env.framework then
                 "dlc-pr-deep-canary-test-arm64"
                else "dlc-pr-deep-canary-test") ""])
      else .ok (fs, []) := by
  cases hc : (cfg.is_deep_canary_mode_enabled &&
      (cfg.is_general_builder_enabled_for_this_pr_build env.framework ||
       cfg.is_graviton_builder_enabled_for_this_pr_build env.framework ||
       cfg.is_arm64_builder_enabled_for_this_pr_build env.framework)) with
  | false => simp [run_deep_canary_pr_testbuilds, hc]
  | true =>
    rw [Bool.and_eq_true] at hc
    obtain ⟨hdc, hor⟩ := hc
    cases hgr : cfg.is_graviton_builder_enabled_for_this_pr_build env.framework <;>
    cases harm : cfg.is_arm64_builder_enabled_for_this_pr_build env.framework <;>
    simp [run_deep_canary_pr_testbuilds, hgr, harm, hdc, test_trigger_entry,
      run_test_job, dispatched_inv]
    all_goals simp_all

lemma mem_of_main (cfg : Config) (env : Env) (fs : FS)
    (out : FS × List BuildInvocation) (inv : BuildInvocation)
    (h : StartTestbuilds.main cfg env fs = .ok out) (hm : inv ∈ out.2) :
    ∃ fs' proj s,
      run_test_job cfg env fs' env.codebuild_resolved_source_version proj s = .ok inv := by
  by_cases hctx : env.build_context = some "PR"
  · rw [StartTestbuilds.main, if_neg (by simp [hctx])] at h
    cases hdc : cfg.is_deep_canary_mode_enabled with
    | true =>
      rw [if_pos (by simp [hdc]), run_deep_canary_eq] at h
      split at h
      · simp only [Except.ok.injEq] at h
        subst h
        simp only [List.mem_singleton] at hm
        subst hm
        refine ⟨{ fs with testEnvFile := some [test_trigger_entry env] },
          (if cfg.is_graviton_builder_enabled_for_this_pr_build env.framework then
            "dlc-pr-deep-canary-test-graviton"
           else if cfg.is_arm64_builder_enabled_for_this_pr_build env.framework then
            "dlc-pr-deep-canary-test-arm64"
           else "dlc-pr-deep-canary-test"), "", ?_⟩
        exact run_test_job_ok_of_some _ _ _ _ _ _ _ rfl
      · simp only [Except.ok.injEq] at h
        subst h
        simp at hm
    | false =>
      rw [if_neg (by simp [hdc])] at h
      cases hti : fs.testTypeImagesFile with
      | none => rw [hti] at h; simp at h
      | some test_images =>
        rw [hti] at h
        dsimp only at h
        cases hl : main_loop cfg env fs env.codebuild_resolved_source_version test_images with
        | error e => rw [hl] at h; simp at h
        | ok invs =>
          rw [hl] at h
          simp only [Except.ok.injEq] at h
          subst h
          obtain ⟨proj, s, hr⟩ :=
            mem_of_main_loop cfg env fs env.codebuild_resolved_source_version
              test_images invs inv hl hm
          exact ⟨fs, proj, s, hr⟩
  · rw [StartTestbuilds.main, if_pos (by simp [hctx])] at h
    simp only [Except.ok.injEq] at h
    subst h
    simp at hm

lemma run_test_job_ok_shape (cfg : Config) (env : Env) (fs : FS)
    (commit : Option String) (proj s : String) (inv : BuildInvocation)
    (h : run_test_job cfg env fs commit proj s = .ok inv) :
    ∃ pre, inv.environmentVariablesOverride = pre ++ baseline_env_overrides cfg env proj s := by
  cases hfs : fs.testEnvFile with
  | none =>
    rw [run_test_job_err_of_none cfg env fs commit proj s hfs] at h
    simp at h
  | some base =>
    rw [run_test_job_ok_of_some cfg env fs commit proj s base hfs] at h
    simp only [Except.ok.injEq] at h
    subst h
    exact ⟨_, rfl⟩

/-- C1: `is_test_job_implemented_for_framework` computes, for every
`images_str` and `test_type`, exactly the rule the spec states: derive
`is_huggingface_trcomp`, `is_huggingface`, `is_trcomp` and `is_autogluon`
by substring checks on `images_str`, then return false under the three
skip rules over the ec2 / ec2-benchmark / ecs / eks test types, else
true. -/
theorem is_test_job_implemented_matches_spec :
    ∀ images_str test_type,
      is_test_job_implemented_for_framework images_str test_type =
        spec_is_test_job_implemented_for_framework images_str test_type := by
  intro s t
  simp only [is_test_job_implemented_for_framework,
    spec_is_test_job_implemented_for_framework, constants.EC2_TESTS,
    constants.EC2_BENCHMARK_TESTS, constants.ECS_TESTS, constants.EKS_TESTS]
  cases pyIn "huggingface" s <;> cases pyIn "trcomp" s <;> simp

/-- C5: when the base environment-override file does not exist,
`run_test_job` raises `FileNotFoundError` for `constants.TEST_ENV_PATH`,
and the invocation dispatches no build (the result is an error, carrying
no `BuildInvocation`); no other effect happens first. -/
theorem run_test_job_missing_env_file (cfg : Config) (env : Env) (fs : FS)
    (commit : Option String) (proj s : String)
    (h : fs.testEnvFile = none) :
    run_test_job cfg env fs commit proj s =
      .error (.fileNotFoundError constants.TEST_ENV_PATH) :=
  run_test_job_err_of_none cfg env fs commit proj s h

/-- C6: for every build context other than "PR" (including unset), `main`
dispatches zero invocations and succeeds, leaving the file system
unchanged — in particular it succeeds even when both input files are
absent, so it reads neither. -/
theorem main_non_pr (cfg : Config) (env : Env) (fs : FS)
    (h : env.build_context ≠ some "PR") :
    StartTestbuilds.main cfg env fs = .ok (fs, []) := by
  rw [StartTestbuilds.main, if_pos h]

/-- C10: `run_deep_canary_pr_testbuilds` never raises: on its dispatching
branch it writes the base environment-override file before calling
`run_test_job`, so the missing-file error branch of `run_test_job` is
unreachable there, and on the other branch it does nothing. -/
theorem run_deep_canary_never_file_not_found (cfg : Config) (env : Env) (fs : FS) :
    ∃ out, run_deep_canary_pr_testbuilds cfg env fs = .ok out := by
  rw [run_deep_canary_eq]
  split
  · exact ⟨_, rfl⟩
  · exact ⟨_, rfl⟩

/-- C2: every build invocation dispatched by `main` — on the deep-canary
branch and on the general branch, for every test type — carries the eleven
baseline entries of §6 as the final block of its override list: the block's
name list is exactly `baselineNames`, which has eleven pairwise-distinct
names (no duplicates, no omissions), and every baseline name occurs in the
invocation's override list. -/
theorem main_dispatch_baseline (cfg : Config) (env : Env) (fs : FS)
    (out : FS × List BuildInvocation) (inv : BuildInvocation)
    (h : StartTestbuilds.main cfg env fs = .ok out) (hm : inv ∈ out.2) :
    baselineNames.Nodup ∧ baselineNames.length = 11 ∧
    (∀ n ∈ baselineNames, n ∈ inv.environmentVariablesOverride.map EnvOverride.name) ∧
    ∃ pre, inv.environmentVariablesOverride.map EnvOverride.name = pre ++ baselineNames := by
  obtain ⟨fs', proj, s, hr⟩ := mem_of_main cfg env fs out inv h hm
  obtain ⟨pre, hpre⟩ :=
    run_test_job_ok_shape cfg env fs' env.codebuild_resolved_source_version proj s inv hr
  have hname : inv.environmentVariablesOverride.map EnvOverride.name =
      pre.map EnvOverride.name ++ baselineNames := by
    rw [hpre, List.map_append, map_name_baseline]
  refine ⟨by decide, by decide, ?_, ⟨pre.map EnvOverride.name, hname⟩⟩
  intro n hn
  rw [hname]
  exact List.mem_append_right _ hn

/-- C3: on a PR build with deep-canary mode enabled, `main` dispatches
exactly one invocation when a general, graviton or arm64 builder is
enabled for the build's framework — and that single invocation is the
deep-canary job, `dlc-pr-deep-canary-test` with the builder-selected
suffix — and zero invocations when none of the three is enabled; no
per-test-type jobs run in this mode. -/
theorem main_deep_canary_dispatch (cfg : Config) (env : Env) (fs : FS)
    (hdc : cfg.is_deep_canary_mode_enabled = true)
    (hctx : env.build_context = some "PR") :
    ((cfg.is_general_builder_enabled_for_this_pr_build env.framework ||
      cfg.is_graviton_builder_enabled_for_this_pr_build env.framework ||
      cfg.is_arm64_builder_enabled_for_this_pr_build env.framework) = true →
      ∃ fs' inv, StartTestbuilds.main cfg env fs = .ok (fs', [inv]) ∧
        inv.projectName =
          (if cfg.is_graviton_builder_enabled_for_this_pr_build env.framework then
            "dlc-pr-deep-canary-test-graviton"
           else if cfg.is_arm64_builder_enabled_for_this_pr_build env.framework then
            "dlc-pr-deep-canary-test-arm64"
           else "dlc-pr-deep-canary-test")) ∧
    ((cfg.is_general_builder_enabled_for_this_pr_build env.framework ||
      cfg.is_graviton_builder_enabled_for_this_pr_build env.framework ||
      cfg.is_arm64_builder_enabled_for_this_pr_build env.framework) = false →
      StartTestbuilds.main cfg env fs = .ok (fs, [])) := by
  have hmain : StartTestbuilds.main cfg env fs = run_deep_canary_pr_testbuilds cfg env fs := by
    rw [StartTestbuilds.main, if_neg (by simp [hctx]), if_pos (by simp [hdc])]
  constructor
  · intro hb
    rw [hmain, run_deep_canary_eq, if_pos (by simp [hdc, hb])]
    exact ⟨_, _, rfl, rfl⟩
  · intro hb
    rw [hmain, run_deep_canary_eq, if_neg (by simp [hb])]

/-- C4: on a PR build with deep-canary mode enabled and the graviton
builder enabled for the build's framework, `main` dispatches exactly one
invocation, for job `dlc-pr-deep-canary-test-graviton` — also when the
arm64 builder is enabled as well (graviton takes precedence). -/
theorem main_deep_canary_graviton (cfg : Config) (env : Env) (fs : FS)
    (hdc : cfg.is_deep_canary_mode_enabled = true)
    (hctx : env.build_context = some "PR")
    (hgr : cfg.is_graviton_builder_enabled_for_this_pr_build env.framework = true) :
    ∃ fs' inv, StartTestbuilds.main cfg env fs = .ok (fs', [inv]) ∧
      inv.projectName = "dlc-pr-deep-canary-test-graviton" := by
  have hmain : StartTestbuilds.main cfg env fs = run_deep_canary_pr_testbuilds cfg env fs := by
    rw [StartTestbuilds.main, if_neg (by simp [hctx]), if_pos (by simp [hdc])]
  rw [hmain, run_deep_canary_eq, if_pos (by simp [hdc, hgr])]
  refine ⟨_, _, rfl, ?_⟩
  simp [dispatched_inv, hgr]

/-- C7: on the general path, for a (test_type, images) pair with non-empty
images whose two eligibility predicates hold, the first dispatched
invocation's job name follows the spec's rule `spec_job_name`:
`dlc-pr-{test_type}-test`, with the `-graviton` / `-arm64` suffix applied
only for the sanity and security test types (graviton checked first). -/
theorem general_path_job_name (cfg : Config) (env : Env) (fs : FS)
    (commit : Option String) (t : String) (images : List String)
    (invs : List BuildInvocation)
    (hne : images.isEmpty = false)
    (hA : is_test_job_enabled cfg t = true)
    (hB : is_test_job_implemented_for_framework (String.intercalate " " images) t = true)
    (h : process_test_type cfg env fs commit t images = .ok invs) :
    ∃ inv rest, invs = inv :: rest ∧
      inv.projectName = spec_job_name t (String.intercalate " " images) := by
  cases hfs : fs.testEnvFile with
  | none =>
    rw [process_test_type_eq_of_none cfg env fs commit t images hfs hne] at h
    rw [if_pos (by simp [hA, hB])] at h
    simp at h
  | some base =>
    rw [process_test_type_eq_of_some cfg env fs commit t images base hfs hne] at h
    rw [if_pos (by simp [hA, hB])] at h
    simp only [Except.ok.injEq] at h
    subst h
    refine ⟨_, _, rfl, ?_⟩
    show compute_pr_test_job t (String.intercalate " " images) =
      spec_job_name t (String.intercalate " " images)
    rfl

/-- C8: on the general path, for a pair with test type the literal
"sagemaker" and non-empty images, when the local-test config flag holds an
invocation for job `dlc-pr-sagemaker-local-test` is among the dispatched
invocations — with no hypothesis on the two eligibility predicates, so
independently of them. -/
theorem sagemaker_local_dispatch (cfg : Config) (env : Env) (fs : FS)
    (commit : Option String) (images : List String) (invs : List BuildInvocation)
    (hne : images.isEmpty = false)
    (hloc : cfg.is_sm_local_test_enabled = true)
    (h : process_test_type cfg env fs commit "sagemaker" images = .ok invs) :
    ∃ inv, inv ∈ invs ∧ inv.projectName = "dlc-pr-sagemaker-local-test" := by
  have hc3 : (("sagemaker" : String) == "sagemaker" && cfg.is_sm_local_test_enabled) = true := by
    simp [hloc]
  cases hfs : fs.testEnvFile with
  | none =>
    rw [process_test_type_eq_of_none cfg env fs commit "sagemaker" images hfs hne] at h
    rw [if_pos (by simp [hloc])] at h
    simp at h
  | some base =>
    rw [process_test_type_eq_of_some cfg env fs commit "sagemaker" images base hfs hne] at h
    simp only [hc3, if_true] at h
    simp only [Except.ok.injEq] at h
    subst h
    refine ⟨dispatched_inv cfg env base commit ("dlc-pr-" ++ "sagemaker" ++ "-local-test")
      (String.intercalate " " images), by simp, rfl⟩

/-- Concrete all-flags-off config snapshot, used to instantiate theorems. -/
def cfg0 : Config :=
  { is_deep_canary_mode_enabled := false,
    are_heavy_instance_ec2_tests_enabled := false,
    is_ipv6_test_enabled := false,
    is_nightly_pr_test_mode_enabled := false,
    is_scheduler_enabled := false,
    get_sagemaker_remote_efa_instance_type := "ml.p4d.24xlarge",
    get_ipv6_vpc_name := "",
    get_buildspec_override := none,
    is_sm_remote_test_enabled := false,
    is_sm_efa_test_enabled := false,
    is_sm_rc_test_enabled := false,
    is_sm_benchmark_test_enabled := false,
    is_ec2_test_enabled := false,
    is_ec2_benchmark_test_enabled := false,
    is_ecs_test_enabled := false,
    is_eks_test_enabled := false,
    is_sanity_test_enabled := false,
    is_security_test_enabled := false,
    is_sm_local_test_enabled := false,
    is_autopatch_build_enabled := fun _ => false,
    is_general_builder_enabled_for_this_pr_build := fun _ => false,
    is_graviton_builder_enabled_for_this_pr_build := fun _ => false,
    is_arm64_builder_enabled_for_this_pr_build := fun _ => false }

/-- Concrete PR-build environment snapshot with all variables set. -/
def env0 : Env :=
  { build_context := some "PR",
    framework := some "pytorch",
    image_type := some "training",
    pr_number := some "1234",
    codebuild_resolved_source_version := some "abc123",
    framework_buildspec_file := some "buildspec.yml",
    codebuild_project_name := "dlc-pr-pytorch-training-test" }

/-- Concrete PR-build environment snapshot with `PR_NUMBER` and
`FRAMEWORK_BUILDSPEC_FILE` unset. -/
def envC9 : Env :=
  { build_context := some "PR",
    framework := none,
    image_type := none,
    pr_number := none,
    codebuild_resolved_source_version := none,
    framework_buildspec_file := none,
    codebuild_project_name := "dlc-pr-pytorch-training-test" }

/-- C9 counterexample: at a concrete environment in which the `PR_NUMBER`
and `FRAMEWORK_BUILDSPEC_FILE` environment variables are unset and no
buildspec override is configured, `run_test_job` succeeds but its override
list contains an entry whose value is not a string (Python `None`): the
claim that every entry's value is always a string fails. -/
theorem env_override_value_not_always_string :
    (run_test_job cfg0 envC9 { testEnvFile := some [], testTypeImagesFile := none } none
        "dlc-pr-ec2-test" "img").map
      (fun inv => inv.environmentVariablesOverride.all (fun e => e.value.isSome)) =
    .ok false := rfl

/-- C9 (amended): every override record `run_test_job` constructs — the
`DEEP_CANARY_MODE` record, when appended, and the eleven baseline records —
has type "PLAINTEXT", and every baseline entry's value is a string except
possibly `PR_NUMBER` — whose value is Python `None` exactly when the
`PR_NUMBER` environment variable is unset — and `FRAMEWORK_BUILDSPEC_FILE`
— whose value is `None` exactly when the config override is unset or empty
and the `FRAMEWORK_BUILDSPEC_FILE` environment variable is unset. -/
theorem run_test_job_env_override_shape (cfg : Config) (env : Env) (fs : FS)
    (commit : Option String) (proj s : String) (inv : BuildInvocation)
    (h : run_test_job cfg env fs commit proj s = .ok inv) :
    (∃ base, fs.testEnvFile = some base ∧
      inv.environmentVariablesOverride =
        base ++ ((if cfg.is_deep_canary_mode_enabled then
            [{ name := "DEEP_CANARY_MODE", value := some "true", type := "PLAINTEXT" }]
          else []) ++ baseline_env_overrides cfg env proj s)) ∧
    (∀ e ∈ (if cfg.is_deep_canary_mode_enabled then
          [{ name := "DEEP_CANARY_MODE", value := some "true", type := "PLAINTEXT" }]
        else ([] : List EnvOverride)) ++ baseline_env_overrides cfg env proj s,
      e.type = "PLAINTEXT") ∧
    (∀ e ∈ baseline_env_overrides cfg env proj s,
      (e.name = "PR_NUMBER" → (e.value = none ↔ env.pr_number = none)) ∧
      (e.name = "FRAMEWORK_BUILDSPEC_FILE" →
        (e.value = none ↔
          pyOr cfg.get_buildspec_override env.framework_buildspec_file = none)) ∧
      (e.name ≠ "PR_NUMBER" → e.name ≠ "FRAMEWORK_BUILDSPEC_FILE" →
        e.value.isSome = true)) := by
  cases hfs : fs.testEnvFile with
  | none =>
    rw [run_test_job_err_of_none cfg env fs commit proj s hfs] at h
    simp at h
  | some base =>
    rw [run_test_job_ok_of_some cfg env fs commit proj s base hfs] at h
    simp only [Except.ok.injEq] at h
    subst h
    refine ⟨⟨base, rfl, ?_⟩, ?_, ?_⟩
    · cases hdc : cfg.is_deep_canary_mode_enabled <;> simp [dispatched_inv, hdc]
    · intro e he
      simp only [List.mem_append] at he
      rcases he with he | he
      · cases hdc : cfg.is_deep_canary_mode_enabled <;> simp [hdc] at he
        subst he
        rfl
      · simp only [baseline_env_overrides, List.mem_cons, List.not_mem_nil, or_false] at he
        rcases he with rfl | rfl | rfl | rfl | rfl | rfl | rfl | rfl | rfl | rfl | rfl <;> rfl
    · intro e he
      simp only [baseline_env_overrides, List.mem_cons, List.not_mem_nil, or_false] at he
      rcases he with rfl | rfl | rfl | rfl | rfl | rfl | rfl | rfl | rfl | rfl | rfl <;> simp

/-- Concrete file-system state with neither input file present. -/
def fsEmpty : FS := { testEnvFile := none, testTypeImagesFile := none }

/-- Concrete file-system state: empty base override file, one sanity pair. -/
def fsW : FS := { testEnvFile := some [], testTypeImagesFile := some [("sanity", ["my-img"])] }

/-- Config with only the sanity test flag enabled. -/
def cfgSanity : Config := { cfg0 with is_sanity_test_enabled := true }

/-- Config with deep-canary mode and the general builder enabled. -/
def cfgDeepGeneral : Config :=
  { cfg0 with
    is_deep_canary_mode_enabled := true
    is_general_builder_enabled_for_this_pr_build := fun _ => true }

/-- Config with deep-canary mode and both the graviton and the arm64
builders enabled. -/
def cfgDeepGraviton : Config :=
  { cfg0 with
    is_deep_canary_mode_enabled := true
    is_graviton_builder_enabled_for_this_pr_build := fun _ => true
    is_arm64_builder_enabled_for_this_pr_build := fun _ => true }

/-- Config with only the SageMaker local-test flag enabled. -/
def cfgSmLocal : Config := { cfg0 with is_sm_local_test_enabled := true }

/-- Environment snapshot with `BUILD_CONTEXT` unset. -/
def envNonPR : Env := { env0 with build_context := none }

/-- The single invocation `main cfgSanity env0 fsW` dispatches. -/
def invSanity : BuildInvocation :=
  dispatched_inv cfgSanity env0 [] env0.codebuild_resolved_source_version
    "dlc-pr-sanity-test" "my-img"

/-- Witness for C2 at a concrete dispatching run. -/
theorem main_dispatch_baseline_witness :
    baselineNames.Nodup ∧ baselineNames.length = 11 ∧
    (∀ n ∈ baselineNames, n ∈ invSanity.environmentVariablesOverride.map EnvOverride.name) ∧
    ∃ pre, invSanity.environmentVariablesOverride.map EnvOverride.name = pre ++ baselineNames :=
  main_dispatch_baseline cfgSanity env0 fsW (fsW, [invSanity]) invSanity (by rfl) (by simp)

/-- Witness for C3 at a concrete deep-canary run with the general builder
enabled. -/
theorem main_deep_canary_dispatch_witness :
    ((cfgDeepGeneral.is_general_builder_enabled_for_this_pr_build env0.framework ||
      cfgDeepGeneral.is_graviton_builder_enabled_for_this_pr_build env0.framework ||
      cfgDeepGeneral.is_arm64_builder_enabled_for_this_pr_build env0.framework) = true →
      ∃ fs' inv, StartTestbuilds.main cfgDeepGeneral env0 fsEmpty = .ok (fs', [inv]) ∧
        inv.projectName =
          (if cfgDeepGeneral.is_graviton_builder_enabled_for_this_pr_build env0.framework then
            "dlc-pr-deep-canary-test-graviton"
           else if cfgDeepGeneral.is_arm64_builder_enabled_for_this_pr_build env0.framework then
            "dlc-pr-deep-canary-test-arm64"
           else "dlc-pr-deep-canary-test")) ∧
    ((cfgDeepGeneral.is_general_builder_enabled_for_this_pr_build env0.framework ||
      cfgDeepGeneral.is_graviton_builder_enabled_for_this_pr_build env0.framework ||
      cfgDeepGeneral.is_arm64_builder_enabled_for_this_pr_build env0.framework) = false →
      StartTestbuilds.main cfgDeepGeneral env0 fsEmpty = .ok (fsEmpty, [])) :=
  main_deep_canary_dispatch cfgDeepGeneral env0 fsEmpty rfl rfl

/-- Witness for C4 at a concrete run with graviton and arm64 both enabled. -/
theorem main_deep_canary_graviton_witness :
    ∃ fs' inv, StartTestbuilds.main cfgDeepGraviton env0 fsEmpty = .ok (fs', [inv]) ∧
      inv.projectName = "dlc-pr-deep-canary-test-graviton" :=
  main_deep_canary_graviton cfgDeepGraviton env0 fsEmpty rfl rfl rfl

/-- Witness for C5 at a concrete state with the base file missing. -/
theorem run_test_job_missing_env_file_witness :
    run_test_job cfg0 env0 fsEmpty none "dlc-pr-sanity-test" "" =
      .error (.fileNotFoundError constants.TEST_ENV_PATH) :=
  run_test_job_missing_env_file cfg0 env0 fsEmpty none "dlc-pr-sanity-test" "" rfl

/-- Witness for C6 at a concrete non-PR run with both input files absent. -/
theorem main_non_pr_witness :
    StartTestbuilds.main cfg0 envNonPR fsEmpty = .ok (fsEmpty, []) :=
  main_non_pr cfg0 envNonPR fsEmpty (by simp [envNonPR])

/-- The single invocation the C7 witness run dispatches. -/
def invSanityGraviton : BuildInvocation :=
  dispatched_inv cfgSanity env0 [] none "dlc-pr-sanity-test-graviton" "pt-graviton-img"

/-- Witness for C7: a graviton images string under test type sanity
resolves to job `dlc-pr-sanity-test-graviton`. -/
theorem general_path_job_name_witness :
    spec_job_name "sanity" (String.intercalate " " ["pt-graviton-img"]) =
      "dlc-pr-sanity-test-graviton" ∧
    ∃ inv rest, [invSanityGraviton] = inv :: rest ∧
      inv.projectName = spec_job_name "sanity" (String.intercalate " " ["pt-graviton-img"]) :=
  ⟨rfl, general_path_job_name cfgSanity env0 fsW none "sanity" ["pt-graviton-img"]
    [invSanityGraviton] rfl rfl rfl rfl⟩

/-- The single invocation the C8 witness run dispatches (both eligibility
predicates are false there: no test-type flag is enabled). -/
def invSmLocal : BuildInvocation :=
  dispatched_inv cfgSmLocal env0 [] none "dlc-pr-sagemaker-local-test" "huggingface-img"

/-- Witness for C8 at a concrete run where predicate A is false. -/
theorem sagemaker_local_dispatch_witness :
    ∃ inv, inv ∈ [invSmLocal] ∧ inv.projectName = "dlc-pr-sagemaker-local-test" :=
  sagemaker_local_dispatch cfgSmLocal env0 fsW none ["huggingface-img"] [invSmLocal]
    rfl rfl rfl

/-- The invocation of the C9-amended witness run. -/
def invShape : BuildInvocation := dispatched_inv cfg0 env0 [] none "dlc-pr-ec2-test" "img"

/-- Witness for the amended C9 at a concrete run with every source set. -/
theorem run_test_job_env_override_shape_witness :
    (∃ base, ({ testEnvFile := some [], testTypeImagesFile := none } : FS).testEnvFile =
        some base ∧
      invShape.environmentVariablesOverride =
        base ++ ((if cfg0.is_deep_canary_mode_enabled then
            [{ name := "DEEP_CANARY_MODE", value := some "true", type := "PLAINTEXT" }]
          else []) ++ baseline_env_overrides cfg0 env0 "dlc-pr-ec2-test" "img")) ∧
    (∀ e ∈ (if cfg0.is_deep_canary_mode_enabled then
          [{ name := "DEEP_CANARY_MODE", value := some "true", type := "PLAINTEXT" }]
        else ([] : List EnvOverride)) ++
          baseline_env_overrides cfg0 env0 "dlc-pr-ec2-test" "img",
      e.type = "PLAINTEXT") ∧
    (∀ e ∈ baseline_env_overrides cfg0 env0 "dlc-pr-ec2-test" "img",
      (e.name = "PR_NUMBER" → (e.value = none ↔ env0.pr_number = none)) ∧
      (e.name = "FRAMEWORK_BUILDSPEC_FILE" →
        (e.value = none ↔
          pyOr cfg0.get_buildspec_override env0.framework_buildspec_file = none)) ∧
      (e.name ≠ "PR_NUMBER" → e.name ≠ "FRAMEWORK_BUILDSPEC_FILE" →
        e.value.isSome = true)) :=
  run_test_job_env_override_shape cfg0 env0
    { testEnvFile := some [], testTypeImagesFile := none }
    none "dlc-pr-ec2-test" "img" invShape rfl
